import Mathlib

/-!
Shallow embedding of the trx-control daemon sources for verification:

* the NMEA sentence decoder (`nmea_input`, `nmea_scan`, `nmea_gprmc`,
  `nmea_decode_gga`, `nmea_locator`, `nmea_degrees`, `nmea_date`, `nmea_time`),
* the websocket handshake negotiator and listener (`websocket_handshake`,
  `websocket_listener`),
* the transceiver controller thread (`trx_control`).

Modelling conventions: C `double` values are modelled as exact rationals `ℚ`
(the decoder only adds, multiplies and divides decimal digit strings, so no
claim below depends on binary floating-point rounding); C strings are `List
Char` (a C string cannot contain NUL, so the list holds the bytes before the
terminator); C `int` results are `Int`; functions that can fail return
`Option`.  Truncating C conversions from `double` to integer types round
toward zero, embedded as `cTrunc`; C integer `/` and `%` are `Int.tdiv` and
`Int.tmod`.
-/

set_option autoImplicit false

namespace TrxControl

/-- Truncation toward zero, the C semantics of converting a `double` to an
integer type. -/
def cTrunc (q : ℚ) : Int := if 0 ≤ q then ⌊q⌋ else ⌈q⌉

/-- Conversion of a C `int` holding a character code back to a byte, as done
when the result of arithmetic on character codes is stored into a `char`. -/
def byteOf (i : Int) : Char := Char.ofNat i.toNat

/-! ## NMEA decoder state (`struct nmea` in the source)

The fix state of the decoder: broken-down time `tm`, signal `status`,
position, altitude, speed, GPS `mode` character and the Maidenhead
`locator`.  The receive-buffer fields (`cbuf`, `sync`, `pos`) of the C
struct live in the byte-collection layer and are modelled separately in
`NmeaMachine`. -/

/-- Fields of `struct tm` used by the decoder. -/
structure Tm where
  tm_sec : Int
  tm_min : Int
  tm_hour : Int
  tm_mday : Int
  tm_mon : Int
  tm_year : Int
deriving DecidableEq

/-- Fix state of `struct nmea`: date/time, status, position, altitude, speed,
GPS mode and the stored grid locator. -/
structure Nmea where
  tm : Tm
  status : Int
  latitude : ℚ
  longitude : ℚ
  altitude : ℚ
  speed : ℚ
  mode : Char
  locator : List Char
deriving DecidableEq

/-- Constant `KNOTTOMS` from the source: knots to meters per second. -/
def KNOTTOMS : ℚ := 514444 / 1000000

/-- Constant `MAXFLDS` from the source. -/
def MAXFLDS : Nat := 32

/-- Constant `NMEAMAX` from the source. -/
def NMEAMAX : Nat := 82

/-- Constant `LOCMAX` from the source. -/
def LOCMAX : Nat := 6

/-- Value of a character when the C code computes `c - '0'` in `int`
arithmetic and uses the result in a `double` expression. -/
def digitVal (c : Char) : ℚ := ((c.toNat : Int) : ℚ) - 48

/-- Left fold accumulating decimal digits, the shape
`x = x * 10 + (*p++ - '0')` used by the conversion loops in the source. -/
def foldDigits (l : List Char) (init : ℚ) : ℚ :=
  l.foldl (fun a c => a * 10 + digitVal c) init

/-- Integer variant of the digit fold, for the `struct tm` fields. -/
def digitValZ (c : Char) : Int := (c.toNat : Int) - 48

/-- Character scan of `nmea_degrees`: skip leading zeroes, locate the
decimal point at offset `ppos` (failing when there is none or when nothing
follows it), and return the three digit groups the conversion loops walk:
the characters more than two places before the point (degrees), the last two
characters before the point, and up to four characters after it (minutes). -/
def nmea_degrees_split (src0 : List Char) :
    Option (List Char × List Char × List Char) :=
  let s := src0.dropWhile (fun c => c = '0')
  match s.findIdx? (fun c => c = '.') with
  | none => none
  | some ppos =>
    if ppos + 1 = s.length then none
    else
      let pre := s.take ppos
      some (pre.take (ppos - 2), pre.drop (ppos - 2), (s.drop (ppos + 1)).take 4)

/-- Embedding of `nmea_degrees`: convert a position of the form `DDDMM.MMMM`
to decimal degrees.  The character scan is `nmea_degrees_split` above; the
two digit groups forming the minutes are folded in sequence as by the second
and third conversion loops, and the result is `deg + min / 600000`, negated
when `neg` is set.  Returns `none` (C: `-1`) when the scan fails; in that
case the destination is not written. -/
def nmea_degrees (src0 : List Char) (neg : Bool) : Option ℚ :=
  match nmea_degrees_split src0 with
  | none => none
  | some (degChars, minChars1, minChars2) =>
    let deg := foldDigits degChars 0
    let minv := foldDigits minChars2 (foldDigits minChars1 0)
    let deg := deg + minv / 600000
    some (if neg then -deg else deg)

/-- Embedding of `nmea_date`: a date string must consist of exactly six
decimal digits `DDMMYY`; on success the day, month and year fields of the
given `tm` are set, otherwise `none` (C: `-1`) and `tm` is untouched. -/
def nmea_date (s : List Char) (tm : Tm) : Option Tm :=
  if s.length = 6 ∧ s.all (fun c => '0' ≤ c ∧ c ≤ '9') then
    some { tm with
      tm_year := 100 + digitValZ (s.getD 4 (Char.ofNat 0)) * 10 +
        digitValZ (s.getD 5 (Char.ofNat 0)),
      tm_mon := digitValZ (s.getD 2 (Char.ofNat 0)) * 10 +
        digitValZ (s.getD 3 (Char.ofNat 0)),
      tm_mday := digitValZ (s.getD 0 (Char.ofNat 0)) * 10 +
        digitValZ (s.getD 1 (Char.ofNat 0)) }
  else none

/-- Embedding of `nmea_time`.  The C comment above the function promises to
return `-1` when illegal characters are encountered, but the body performs no
validation at all: it unconditionally stores `(s[i]-'0')`-derived values into
the hour, minute and second fields and always returns `0`.  The embedding
reproduces that behaviour; the returned `Int` is the C return value. -/
def nmea_time (s : List Char) (tm : Tm) : Int × Tm :=
  let d := fun i => digitValZ (s.getD i (Char.ofNat 0))
  (0, { tm with
    tm_hour := d 0 * 10 + d 1,
    tm_min := d 2 * 10 + d 3,
    tm_sec := d 4 * 10 + d 5 })

/-- Embedding of the C library `atof` on the digit strings NMEA fields carry:
optional sign, integer digits, optional decimal point and fraction digits
(exponent notation does not occur in NMEA sentences and is omitted).  An
empty or non-numeric field yields `0`. -/
def atofQ (s : List Char) : ℚ :=
  let s := s.dropWhile (fun c => c = ' ' ∨ c = '\t')
  let sign : ℚ := if s.headD (Char.ofNat 0) = '-' then -1 else 1
  let s := if s.headD (Char.ofNat 0) = '-' ∨ s.headD (Char.ofNat 0) = '+'
    then s.drop 1 else s
  let intPart := s.takeWhile (fun c => '0' ≤ c ∧ c ≤ '9')
  let rest := s.drop intPart.length
  let frac :=
    if rest.headD (Char.ofNat 0) = '.' then
      (rest.drop 1).takeWhile (fun c => '0' ≤ c ∧ c ≤ '9')
    else []
  sign * (foldDigits intPart 0 + foldDigits frac 0 / (10 : ℚ) ^ frac.length)

/-- Embedding of `nmea_locator`: out-of-range coordinates return `-1` (C) and
leave the stored locator untouched; otherwise the six locator characters are
computed from the shifted coordinates and the function returns `0`. -/
def nmea_locator (np : Nmea) : Int × Nmea :=
  if np.longitude > 180 ∨ np.longitude < -180 ∨
      np.latitude > 90 ∨ np.latitude < -90 then
    (-1, np)
  else
    let lon : ℚ := np.longitude + 180
    let lat : ℚ := np.latitude + 90
    let c0 := byteOf (65 + cTrunc (lon / 20))
    let c1 := byteOf (65 + cTrunc (lat / 10))
    let c2 := byteOf (48 + Int.tdiv (Int.tmod (cTrunc lon) 20) 2)
    let c3 := byteOf (48 + Int.tmod (cTrunc lat) 10)
    let c4 := byteOf (65 + cTrunc ((lon - ((Int.tdiv (cTrunc lon) 2 * 2 : Int) : ℚ)) * 12))
    let c5 := byteOf (65 + cTrunc ((lat - ((cTrunc lat : Int) : ℚ)) * 24))
    (0, { np with locator := [c0, c1, c2, c3, c4, c5] })

/-- Embedding of `nmea_gprmc`, the RMC sentence decoder.  The field count
must be between 12 and 14; `nmea_time` runs first (it cannot fail and always
updates the time-of-day fields), then `nmea_date` validates the date field
and aborts the sentence on failure — at which point the time-of-day fields
have already been overwritten.  The GPS mode character, signal status,
latitude, longitude and speed follow. -/
def nmea_gprmc (np : Nmea) (fld : List (List Char)) (fldcnt : Nat) : Nmea :=
  if fldcnt < 12 ∨ fldcnt > 14 then np
  else
    let nul := Char.ofNat 0
    let r := nmea_time (fld.getD 1 []) np.tm
    let np := { np with tm := r.2 }
    if r.1 ≠ 0 then np
    else
      match nmea_date (fld.getD 9 []) np.tm with
      | none => np
      | some tm2 =>
        let np := { np with tm := tm2 }
        let m0 := (fld.getD 12 []).headD nul
        let np := if m0 ≠ np.mode then { np with mode := m0 } else np
        let np :=
          match (fld.getD 2 []).headD nul with
          | 'A' => { np with status := 1 }
          | 'D' => { np with status := 1 }
          | 'V' => { np with status := 0 }
          | _ => np
        let np :=
          match nmea_degrees (fld.getD 3 []) ((fld.getD 4 []).headD nul = 'S') with
          | some v => { np with latitude := v }
          | none => np
        let np :=
          match nmea_degrees (fld.getD 5 []) ((fld.getD 6 []).headD nul = 'W') with
          | some v => { np with longitude := v }
          | none => np
        { np with speed := atofQ (fld.getD 7 []) * KNOTTOMS }

/-- Embedding of `nmea_decode_gga`: exactly 15 fields, field 9 is the
altitude in meters. -/
def nmea_decode_gga (np : Nmea) (fld : List (List Char)) (fldcnt : Nat) : Nmea :=
  if fldcnt ≠ 15 then np
  else { np with altitude := atofQ (fld.getD 9 []) }

/-- Tokenization loop of `nmea_scan`: split the buffer into fields on `,`
while xor-accumulating the running checksum.  A `*` terminates the loop and
makes the remaining bytes the declared-checksum string.  Every byte scanned
other than `*` — the comma separators included — enters the checksum.  When a
comma would create more than `MAXFLDS` fields the sentence is abandoned
(`none`). -/
def splitScan : List Char → Nat → List Char → List (List Char) →
    Option (List (List Char) × Nat × Option (List Char))
  | [], ck, cur, acc => some (acc ++ [cur], ck, none)
  | c :: rest, ck, cur, acc =>
    if c = '*' then some (acc ++ [cur], ck, some rest)
    else if c = ',' then
      if acc.length + 1 < MAXFLDS then
        splitScan rest (ck ^^^ c.toNat) [] (acc ++ [cur])
      else none
    else splitScan rest (ck ^^^ c.toNat) (cur ++ [c]) acc

/-- Declared-checksum parser of `nmea_scan`: only the characters `0`-`9` and
uppercase `A`-`F` are accepted (lowercase hex is rejected, `none`), and the
accumulator is shifted left by four bits only when it is already nonzero,
exactly as in the source. -/
def parseCksum : List Char → Nat → Option Nat
  | [], acc => some acc
  | c :: rest, acc =>
    if ('0' ≤ c ∧ c ≤ '9') ∨ ('A' ≤ c ∧ c ≤ 'F') then
      let acc := if acc ≠ 0 then acc <<< 4 else acc
      let acc := if '0' ≤ c ∧ c ≤ '9' then acc + (c.toNat - 48)
        else acc + (10 + c.toNat - 65)
      parseCksum rest acc
    else none

/-- Talker prefixes accepted by `nmea_scan`. -/
def talkers : List (List Char) :=
  [['B', 'D'], ['G', 'A'], ['G', 'L'], ['G', 'N'], ['G', 'P']]

/-- Embedding of `nmea_scan` on a completed sentence buffer: tokenize and
checksum, filter on talker and sentence type, verify a declared checksum when
one is present, then dispatch to the RMC and GGA decoders and recompute the
locator.  Every early exit leaves the fix state untouched. -/
def nmea_scan (np : Nmea) (cbuf : List Char) : Nmea :=
  match splitScan cbuf 0 [] [] with
  | none => np
  | some (fld, cksum, cs) =>
    let fld0 := fld.headD []
    if ¬ (fld0.take 2 ∈ talkers) then np
    else if ¬ ((fld0.drop 2).take 3 = ['R', 'M', 'C'] ∨
        (fld0.drop 2).take 3 = ['G', 'G', 'A']) then np
    else
      let ok :=
        match cs with
        | none => true
        | some csl =>
          match parseCksum csl 0 with
          | none => false
          | some m => decide (m = cksum)
      if ok then
        let np := if (fld0.drop 2).take 3 = ['R', 'M', 'C'] then
          nmea_gprmc np fld fld.length else np
        let np := if (fld0.drop 2).take 3 = ['G', 'G', 'A'] then
          nmea_decode_gga np fld fld.length else np
        (nmea_locator np).2
      else np

/-- Byte-collection state of `struct nmea`: the receive buffer and the sync
flag (`sync = true` means waiting for a `$` start marker). -/
structure NmeaMachine where
  cbuf : List Char
  sync : Bool
  fix : Nmea
deriving DecidableEq

/-- Embedding of `nmea_input`: a `$` resets the buffer and starts collecting;
a terminator hands the collected buffer to `nmea_scan` and waits for the next
start marker; any other byte is appended while the buffer has room. -/
def nmea_input (c : Char) (m : NmeaMachine) : NmeaMachine :=
  if c = '$' then { m with cbuf := [], sync := false }
  else if c = Char.ofNat 13 ∨ c = Char.ofNat 10 then
    if ¬ m.sync then { m with fix := nmea_scan m.fix m.cbuf, sync := true }
    else m
  else
    if ¬ m.sync ∧ m.cbuf.length < NMEAMAX - 1 then
      { m with cbuf := m.cbuf ++ [c] }
    else m

/-! ## Websocket handshake negotiator and listener

The handshake negotiator `websocket_handshake` lives in the repository
source; the HTTP-upgrade parsing and answer-generation helpers
(`wsParseHandshake`, `wsGetHandshakeAnswer`) come from the repository's
vendored websocket library, whose source is not part of the provided tree,
and are modelled from the spec below. -/

/-- Result of parsing a handshake request: the requested resource path and
the client's handshake key. -/
structure WsHandshake where
  resource : List Char
  key : List Char
deriving DecidableEq

/-- Split a byte list into lines on CRLF pairs. -/
def splitCRLF : List Char → List (List Char)
  | [] => [[]]
  | [c] => [[c]]
  | c :: d :: rest =>
    if c = Char.ofNat 13 ∧ d = Char.ofNat 10 then [] :: splitCRLF rest
    else
      match splitCRLF (d :: rest) with
      | [] => [[c]]
      | l :: ls => (c :: l) :: ls

/-- Split a byte list on a separator character. -/
def splitOnChar (sep : Char) : List Char → List (List Char)
  | [] => [[]]
  | c :: rest =>
    if c = sep then [] :: splitOnChar sep rest
    else
      match splitOnChar sep rest with
      | [] => [[c]]
      | l :: ls => (c :: l) :: ls

/-- Header name introducing the client handshake key. -/
def wsKeyHeader : List Char := "Sec-WebSocket-Key: ".toList

/-- Modelled from the spec: `wsParseHandshake` of the vendored websocket
library, whose source is not under `src/`.  Per the spec the negotiator
parses an opening request line and headers and extracts the requested
resource path and the client's handshake key; a request that does not have
this shape is not an opening frame (`none`). -/
def wsParseHandshake (buf : List Char) : Option WsHandshake :=
  match splitCRLF buf with
  | [] => none
  | reqline :: headers =>
    match splitOnChar ' ' reqline with
    | [m, path, ver] =>
      if m = "GET".toList ∧ ver = "HTTP/1.1".toList ∧ path ≠ [] then
        match headers.filterMap (fun h =>
            if wsKeyHeader.isPrefixOf h then some (h.drop wsKeyHeader.length)
            else none) with
        | [k] => some ⟨path, k⟩
        | _ => none
      else none
    | _ => none

/-- Modelled from the spec: the protocol-mandated key derivation of
`wsGetHandshakeAnswer` (vendored websocket library, not under `src/`).  The
spec requires only that the accept answer be a pure, reproducible function of
the request's handshake key; the derivation is abstracted as concatenation
with the protocol GUID, eliding the hash encoding. -/
def wsDerivedKey (key : List Char) : List Char :=
  key ++ "258EAFA5-E914-47DA-95CA-C5AB0DC85B11".toList

/-- Modelled from the spec: `wsGetHandshakeAnswer` of the vendored websocket
library — the handshake acceptance answer, a pure function of the request's
handshake key. -/
def wsGetHandshakeAnswer (key : List Char) : List Char :=
  "HTTP/1.1 101 Switching Protocols".toList ++ wsDerivedKey key

/-- Bytes the negotiator sends back on a connection. -/
inductive HsResponse where
  /-- Handshake acceptance answer derived from the request. -/
  | accept (answer : List Char)
  /-- The 404-equivalent response for a mismatched resource path. -/
  | notFound
  /-- The 400-equivalent response for an unparsable request. -/
  | badRequest
deriving DecidableEq

/-- Embedding of `websocket_handshake`: parse the received bytes; on an
opening frame whose resource equals the configured `handshake` path send the
answer derived from the key and return `0`; on a path mismatch send the 404
response and return `-1`; otherwise send the 400 response and return `-1`.
The returned pair is (bytes sent, C return value `rv`). -/
def websocket_handshake (buf : List Char) (handshake : List Char) :
    HsResponse × Int :=
  match wsParseHandshake buf with
  | some hs =>
    if hs.resource = handshake then
      (.accept (wsGetHandshakeAnswer hs.key), 0)
    else (.notFound, -1)
  | none => (.badRequest, -1)

/-- Observable actions of the listener on one accepted connection. -/
inductive ListenerEvent where
  /-- A client-handler thread was spawned for the connection. -/
  | spawnedHandler
  /-- The per-connection websocket state was freed. -/
  | freedWebsocket
  /-- The connection's socket was closed. -/
  | closedFd
deriving DecidableEq

/-- Embedding of the per-connection tail of `websocket_listener`'s accept
loop: when `websocket_handshake` returns `0` a handler thread is created for
the websocket; otherwise the websocket structure is freed.  Neither branch
closes the accepted socket. -/
def websocket_listener_accept (buf cfg : List Char) : List ListenerEvent :=
  if (websocket_handshake buf cfg).2 = 0 then [.spawnedHandler]
  else [.freedWebsocket]

/-- Constant `MAXLISTEN` from the source. -/
def MAXLISTEN : Nat := 16

/-- One resolved candidate address, with the outcome of each setup step the
listener performs on it (`socket`, `fcntl` non-blocking, `setsockopt`,
`bind`, `listen`). -/
structure BindCandidate where
  socketOk : Bool
  fcntlOk : Bool
  sockoptOk : Bool
  bindOk : Bool
  listenOk : Bool
deriving DecidableEq

/-- Whether every setup step of one candidate succeeds; any failing step
makes the listener close the socket and skip the candidate. -/
def candidateOk (c : BindCandidate) : Bool :=
  c.socketOk && c.fcntlOk && c.sockoptOk && c.bindOk && c.listenOk

/-- Setup loop of `websocket_listener`: walk the resolved candidates while
fewer than `MAXLISTEN` sockets are bound, counting the candidates whose
setup succeeds; failing candidates are skipped. -/
def setupLoop : List BindCandidate → Nat → Nat
  | [], i => i
  | c :: rest, i =>
    if i < MAXLISTEN then
      setupLoop rest (if candidateOk c then i + 1 else i)
    else i

/-- Outcome of listener startup. -/
inductive ListenerSetup where
  /-- Startup aborted (`exit(1)`). -/
  | abortStartup
  /-- The accept loop is entered with the given number of bound sockets. -/
  | enterAcceptLoop (nsock : Nat)
deriving DecidableEq

/-- Embedding of the setup phase of `websocket_listener`: a `getaddrinfo`
failure (`none`) aborts the process; otherwise the candidates are set up
one by one and the accept loop is entered unconditionally with however many
sockets were bound. -/
def websocket_listener_setup (resolved : Option (List BindCandidate)) :
    ListenerSetup :=
  match resolved with
  | none => .abortStartup
  | some cs => .enterAcceptLoop (setupLoop cs 0)

/-! ## Transceiver controller thread (`trx_control`) -/

/-- Environment of one `trx_control` run: the requested driver name
(`trx_type`) and the outcome of each fallible step. -/
structure TrxEnv where
  trx_type : List Char
  deviceOpens : Bool
  isTTY : Bool
  luaNewOk : Bool
  driverExists : Bool
  driverChunkOk : Bool
  initFileExists : Bool
  initFileOk : Bool
deriving DecidableEq

/-- Observable actions of `trx_control`, in program order.  The constructor
`invokedDriverInit` stands for a call into the loaded driver descriptor's
initialize operation; the function body never emits it. -/
inductive TrxEvent where
  /-- `open` was called on the CAT device. -/
  | openAttempt
  /-- Raw-mode tty attributes were applied. -/
  | rawMode
  /-- A Lua state was created. -/
  | luaNew
  /-- The driver file path was built and `stat`-ed. -/
  | statDriver
  /-- The driver chunk was executed with `luaL_dofile`. -/
  | ranDriverChunk
  /-- The global init file was `stat`-ed. -/
  | statInitFile
  /-- The global init file was executed with `luaL_dofile`. -/
  | ranInitFile
  /-- The driver descriptor's initialize operation was invoked. -/
  | invokedDriverInit
  /-- The controller entered its running phase. -/
  | started
deriving DecidableEq

/-- Result of one `trx_control` run. -/
inductive TrxResult where
  /-- The driver name contained a slash and was rejected. -/
  | slashInName
  /-- The CAT device could not be opened. -/
  | deviceUnavailable
  /-- The Lua state could not be created. -/
  | luaStateFailed
  /-- No driver file matched the requested name. -/
  | driverNotFound
  /-- Executing the driver chunk raised a Lua error. -/
  | driverFault
  /-- Executing the global init file raised a Lua error. -/
  | initFileFault
  /-- The controller ran and terminated normally. -/
  | ok
deriving DecidableEq

/-- Embedding of `trx_control`: reject driver names containing a slash
before touching the device or the filesystem; then open the device, apply
raw tty mode when the device is a tty, create the Lua state, `stat` and run
the driver chunk, `stat` and (when present) run the global init file, and
start.  Each failure returns immediately with the trace accumulated so
far. -/
def trx_control (env : TrxEnv) : TrxResult × List TrxEvent :=
  if '/' ∈ env.trx_type then (.slashInName, [])
  else if ¬ env.deviceOpens then (.deviceUnavailable, [.openAttempt])
  else
    let t1 : List TrxEvent :=
      [.openAttempt] ++ (if env.isTTY then [.rawMode] else [])
    if ¬ env.luaNewOk then (.luaStateFailed, t1)
    else if ¬ env.driverExists then
      (.driverNotFound, t1 ++ [.luaNew, .statDriver])
    else if ¬ env.driverChunkOk then
      (.driverFault, t1 ++ [.luaNew, .statDriver, .ranDriverChunk])
    else if env.initFileExists ∧ ¬ env.initFileOk then
      (.initFileFault,
        t1 ++ [.luaNew, .statDriver, .ranDriverChunk, .statInitFile, .ranInitFile])
    else
      (.ok,
        t1 ++ [.luaNew, .statDriver, .ranDriverChunk, .statInitFile] ++
          (if env.initFileExists then [.ranInitFile] else []) ++ [.started])

/-! ## Concrete inputs used by the theorems below -/

/-- Zero-initialized fix state, as after the `nmea_handler` setup code. -/
def np0 : Nmea :=
  ⟨⟨0, 0, 0, 0, 0, 0⟩, 0, 0, 0, 0, 0, Char.ofNat 0, []⟩

/-- Exclusive-or of a byte list, the characterization of the running
checksum computed by `splitScan`. -/
def xorBytes : List Char → Nat
  | [] => 0
  | c :: l => c.toNat ^^^ xorBytes l

/-- Stated from the claim's words, for comparison with the source: the
exclusive-or of all bytes between the start marker and the checksum
separator with the field-separator bytes excluded. -/
def specChecksum (l : List Char) : Nat :=
  xorBytes ((l.takeWhile (fun c => c ≠ '*')).filter (fun c => c ≠ ','))

/-- An RMC field list with 13 fields whose time field `XX1234` contains
illegal characters and whose date field is valid. -/
def c6fld : List (List Char) :=
  ["GPRMC".toList, "XX1234".toList, ['A'], [], ['N'], [], ['E'], [],
    [], "021224".toList, [], [], ['A']]

/-- A well-formed handshake request for resource `/trx` with key `k`. -/
def c1req : List Char :=
  "GET /trx HTTP/1.1".toList ++ [Char.ofNat 13, Char.ofNat 10] ++
    "Sec-WebSocket-Key: k".toList ++
    [Char.ofNat 13, Char.ofNat 10, Char.ofNat 13, Char.ofNat 10]

/-- A controller environment in which every step succeeds and no global
init file is present. -/
def c5env : TrxEnv := ⟨"yaesu".toList, true, true, true, true, true, false, true⟩

/-- A controller environment in which the driver loads but the global init
file exists and raises an error. -/
def c5envInitFail : TrxEnv :=
  ⟨"yaesu".toList, true, false, true, true, true, true, false⟩

/-- A fix state with latitude 47 and longitude 8, inside the locator
range. -/
def c3in : Nmea := ⟨⟨0, 0, 0, 0, 0, 0⟩, 0, 47, 8, 0, 0, Char.ofNat 0, []⟩

/-- A fix state with latitude 91, outside the locator range, and a stored
locator. -/
def c3out : Nmea :=
  ⟨⟨0, 0, 0, 0, 0, 0⟩, 0, 91, 8, 0, 0, Char.ofNat 0, "JN47AB".toList⟩

end TrxControl

namespace TrxControl

/-! ## Theorems settling the claims -/

/-- Helper: the running checksum computed by `splitScan` extends its
accumulator by the exclusive-or of every byte up to the first `*`. -/
theorem splitScan_checksum (l : List Char) :
    ∀ (ck : Nat) (cur : List Char) (acc fld : List (List Char)) (ck2 : Nat)
      (cs : Option (List Char)),
      splitScan l ck cur acc = some (fld, ck2, cs) →
      ck2 = ck ^^^ xorBytes (l.takeWhile (fun c => c ≠ '*')) := by
  induction l with
  | nil =>
    intro ck cur acc fld ck2 cs h
    simp only [splitScan, Option.some.injEq, Prod.mk.injEq] at h
    simp [← h.2.1, xorBytes]
  | cons c rest ih =>
    intro ck cur acc fld ck2 cs h
    simp only [splitScan] at h
    by_cases hstar : c = '*'
    · rw [if_pos hstar] at h
      simp only [Option.some.injEq, Prod.mk.injEq] at h
      simp [← h.2.1, hstar, List.takeWhile_cons, xorBytes]
    · rw [if_neg hstar] at h
      have htake : (c :: rest).takeWhile (fun c => c ≠ '*') =
          c :: rest.takeWhile (fun c => c ≠ '*') := by
        simp [List.takeWhile_cons, hstar]
      by_cases hcomma : c = ','
      · rw [if_pos hcomma] at h
        by_cases hcnt : acc.length + 1 < MAXFLDS
        · rw [if_pos hcnt] at h
          have := ih (ck ^^^ c.toNat) [] (acc ++ [cur]) fld ck2 cs h
          rw [this, htake]
          simp [xorBytes, Nat.xor_assoc]
        · rw [if_neg hcnt] at h
          exact absurd h (by simp)
      · rw [if_neg hcomma] at h
        have := ih (ck ^^^ c.toNat) (cur ++ [c]) acc fld ck2 cs h
        rw [this, htake]
        simp [xorBytes, Nat.xor_assoc]

/-- Helper: the listener setup loop binds no socket when every candidate
fails one of its setup steps. -/
theorem setupLoop_all_fail (cs : List BindCandidate) :
    ∀ i : Nat, (∀ c ∈ cs, candidateOk c = false) → setupLoop cs i = i := by
  induction cs with
  | nil => intro i _; rfl
  | cons c rest ih =>
    intro i h
    simp only [setupLoop, h c (by simp)]
    split
    · exact ih i (fun d hd => h d (by simp [hd]))
    · rfl

/-- C1: handshake negotiation has exactly three outcomes.  If the request
parses as an opening handshake frame and its resource equals the configured
path, the negotiator sends the acceptance answer — a pure function of the
request's handshake key, hence reproducible — and returns success (`0`); if
it parses but the resource differs, it sends the 404 response and fails; if
parsing fails, it sends the 400 response and fails. -/
theorem c1_handshake_trichotomy (buf cfg : List Char) :
    (∀ hs : WsHandshake, wsParseHandshake buf = some hs →
      (hs.resource = cfg →
        websocket_handshake buf cfg =
          (.accept (wsGetHandshakeAnswer hs.key), 0)) ∧
      (hs.resource ≠ cfg →
        websocket_handshake buf cfg = (.notFound, -1))) ∧
    (wsParseHandshake buf = none →
      websocket_handshake buf cfg = (.badRequest, -1)) := by
  constructor
  · intro hs hp
    constructor
    · intro hres
      simp [websocket_handshake, hp, hres]
    · intro hres
      simp [websocket_handshake, hp, hres]
  · intro hp
    simp [websocket_handshake, hp]

/-- Witness for C1 at a concrete request: matching path accepted with the
key-derived answer, mismatched path rejected with 404, garbage rejected
with 400. -/
theorem c1_handshake_trichotomy_witness :
    websocket_handshake c1req ("/trx".toList) =
      (.accept (wsGetHandshakeAnswer ['k']), 0) ∧
    websocket_handshake c1req ("/other".toList) = (.notFound, -1) ∧
    websocket_handshake ("junk".toList) ("/trx".toList) = (.badRequest, -1) :=
  ⟨((c1_handshake_trichotomy c1req ("/trx".toList)).1
      ⟨"/trx".toList, ['k']⟩ (by decide)).1 (by decide),
    ((c1_handshake_trichotomy c1req ("/other".toList)).1
      ⟨"/trx".toList, ['k']⟩ (by decide)).2 (by decide),
    (c1_handshake_trichotomy ("junk".toList) ("/trx".toList)).2 (by decide)⟩

/-- C2: a completed sentence carrying a trailing declared checksum that
parses but differs from the running checksum is discarded before any
parsing: `nmea_scan` leaves the whole fix state unchanged. -/
theorem c2_checksum_mismatch_discards (np : Nmea) (cbuf : List Char)
    (fld : List (List Char)) (ck m : Nat) (csl : List Char)
    (hsplit : splitScan cbuf 0 [] [] = some (fld, ck, some csl))
    (hparse : parseCksum csl 0 = some m)
    (hne : m ≠ ck) :
    nmea_scan np cbuf = np := by
  have hd : decide (m = ck) = false := decide_eq_false hne
  simp only [nmea_scan, hsplit, hparse, hd]
  split_ifs <;> simp_all

/-- Witness for C2: a sentence with declared checksum `00` and computed
checksum 38 leaves the zero fix state untouched. -/
theorem c2_checksum_mismatch_discards_witness :
    nmea_scan np0 ("GPRMC,A*00".toList) = np0 :=
  c2_checksum_mismatch_discards np0 ("GPRMC,A*00".toList)
    ["GPRMC".toList, ['A']] 38 0 ['0', '0'] (by decide) (by decide) (by decide)

/-- C3: for latitude in [-90, 90] and longitude in [-180, 180] the locator
computation succeeds (`0`) and writes a locator of exactly six characters
(it is deterministic because `nmea_locator` is a pure function); for any
pair outside those ranges it fails (`-1`) and leaves the whole state — the
stored locator included — unchanged. -/
theorem c3_locator_range (np : Nmea) :
    (-90 ≤ np.latitude ∧ np.latitude ≤ 90 ∧
        -180 ≤ np.longitude ∧ np.longitude ≤ 180 →
      (nmea_locator np).1 = 0 ∧ ((nmea_locator np).2).locator.length = 6) ∧
    (¬ (-90 ≤ np.latitude ∧ np.latitude ≤ 90 ∧
        -180 ≤ np.longitude ∧ np.longitude ≤ 180) →
      (nmea_locator np).1 = -1 ∧ (nmea_locator np).2 = np) := by
  by_cases h : np.longitude > 180 ∨ np.longitude < -180 ∨
      np.latitude > 90 ∨ np.latitude < -90
  · constructor
    · intro hr
      rcases hr with ⟨h1, h2, h3, h4⟩
      rcases h with h | h | h | h <;> linarith
    · intro _
      simp only [nmea_locator]
      rw [if_pos h]
      exact ⟨rfl, rfl⟩
  · constructor
    · intro _
      simp only [nmea_locator]
      rw [if_neg h]
      exact ⟨rfl, rfl⟩
    · intro hnr
      push_neg at h
      exact absurd ⟨h.2.2.2, h.2.2.1, h.2.1, h.1⟩ hnr

/-- Witness for C3: latitude 47 / longitude 8 succeeds with a six-character
locator; latitude 91 fails and leaves the stored locator `JN47AB` intact. -/
theorem c3_locator_range_witness :
    ((nmea_locator c3in).1 = 0 ∧ ((nmea_locator c3in).2).locator.length = 6) ∧
    ((nmea_locator c3out).1 = -1 ∧ (nmea_locator c3out).2 = c3out) :=
  ⟨(c3_locator_range c3in).1 (by norm_num [c3in]),
    (c3_locator_range c3out).2 (by norm_num [c3out])⟩

/-- C4 counterexample: on the completed sentence `GPRMC,A` the running
checksum computed by the tokenization loop is 38, which xor-includes the
comma byte, while the claim's formula — field-separator bytes excluded —
gives 10.  The claim as stated is therefore false on this input. -/
theorem c4_checksum_counterexample :
    splitScan ("GPRMC,A".toList) 0 [] [] =
      some (["GPRMC".toList, ['A']], 38, none) ∧
    specChecksum ("GPRMC,A".toList) = 10 ∧ (38 : Nat) ≠ 10 := by decide

/-- C4 (amended): for every completed sentence the running checksum equals
the exclusive-or of all bytes between the start marker and the checksum
separator, with the field-separator bytes included in the exclusive-or. -/
theorem c4_checksum_includes_separators (cbuf : List Char)
    (fld : List (List Char)) (ck : Nat) (cs : Option (List Char))
    (h : splitScan cbuf 0 [] [] = some (fld, ck, cs)) :
    ck = xorBytes (cbuf.takeWhile (fun c => c ≠ '*')) := by
  have := splitScan_checksum cbuf 0 [] [] fld ck cs h
  simpa using this

/-- Witness for the amended C4 on the sentence `GPRMC,A`. -/
theorem c4_checksum_includes_separators_witness :
    (38 : Nat) = xorBytes (("GPRMC,A".toList).takeWhile (fun c => c ≠ '*')) :=
  c4_checksum_includes_separators ("GPRMC,A".toList)
    ["GPRMC".toList, ['A']] 38 none (by decide)

/-- C5 counterexample: a load in which the device opens, the driver file
exists and its chunk loads without error runs to completion, yet the trace
contains no invocation of the driver descriptor's initialize operation —
`trx_control` never calls it. -/
theorem c5_load_counterexample :
    (trx_control c5env).1 = .ok ∧
    TrxEvent.invokedDriverInit ∉ (trx_control c5env).2 := by decide

/-- C5 (amended): after the device opens and the driver chunk loads without
error, `trx_control` never invokes the descriptor's initialize operation;
what it runs instead is the optional global init file, and it fails when
that file raises an error. -/
theorem c5_load_initialization (env : TrxEnv)
    (hname : '/' ∉ env.trx_type)
    (hopen : env.deviceOpens = true)
    (hlua : env.luaNewOk = true)
    (hdrv : env.driverExists = true)
    (hchunk : env.driverChunkOk = true) :
    TrxEvent.invokedDriverInit ∉ (trx_control env).2 ∧
    (env.initFileExists = true → env.initFileOk = false →
      (trx_control env).1 = .initFileFault) := by
  constructor
  · simp only [trx_control]
    split_ifs <;> simp
  · intro hex hok
    simp [trx_control, hname, hopen, hlua, hdrv, hchunk, hex, hok]

/-- Witness for the amended C5: with an erroring global init file the load
fails with `initFileFault` and initialize is still never invoked. -/
theorem c5_load_initialization_witness :
    TrxEvent.invokedDriverInit ∉ (trx_control c5envInitFail).2 ∧
    ((c5envInitFail).initFileExists = true →
      (c5envInitFail).initFileOk = false →
      (trx_control c5envInitFail).1 = .initFileFault) :=
  c5_load_initialization c5envInitFail (by decide) (by decide) (by decide)
    (by decide) (by decide)

/-- C6: the code accepts a sentence whose time field holds illegal
characters instead of discarding it.  `nmea_time` never reports failure
(contradicting its own documentation comment), so `nmea_gprmc` on a 13-field
sentence with time field `XX1234` commits garbage to the fix state: the
stored hour becomes 440 where the prior state held 0. -/
theorem c6_illegal_time_not_discarded :
    (nmea_gprmc np0 c6fld 13).tm.tm_hour = 440 ∧
    np0.tm.tm_hour = 0 ∧
    (nmea_time ("XX1234".toList) np0.tm).1 = 0 := by decide

/-- C7 counterexample: on an unparsable request the handshake fails, the
listener frees the per-connection state and spawns no handler, but it never
closes the connection's socket — the claim's "closes that connection" is
false. -/
theorem c7_failed_handshake_counterexample :
    (websocket_handshake ("junk".toList) ("/trx".toList)).2 ≠ 0 ∧
    websocket_listener_accept ("junk".toList) ("/trx".toList) =
      [.freedWebsocket] ∧
    ListenerEvent.closedFd ∉
      websocket_listener_accept ("junk".toList) ("/trx".toList) := by decide

/-- C7 (amended): for every accepted connection whose handshake negotiation
fails, the listener does not spawn a client-handler thread and frees the
per-connection websocket state; it does not close the socket. -/
theorem c7_failed_handshake_no_handler (buf cfg : List Char)
    (h : (websocket_handshake buf cfg).2 ≠ 0) :
    websocket_listener_accept buf cfg = [.freedWebsocket] ∧
    ListenerEvent.spawnedHandler ∉ websocket_listener_accept buf cfg ∧
    ListenerEvent.closedFd ∉ websocket_listener_accept buf cfg := by
  simp [websocket_listener_accept, h]

/-- Witness for the amended C7 at a concrete failing request. -/
theorem c7_failed_handshake_no_handler_witness :
    websocket_listener_accept ("nope".toList) ("/trx".toList) =
      [.freedWebsocket] ∧
    ListenerEvent.spawnedHandler ∉
      websocket_listener_accept ("nope".toList) ("/trx".toList) ∧
    ListenerEvent.closedFd ∉
      websocket_listener_accept ("nope".toList) ("/trx".toList) :=
  c7_failed_handshake_no_handler ("nope".toList) ("/trx".toList) (by decide)

/-- C8 counterexample: with one resolved candidate whose `socket` call
fails, every candidate fails, yet the listener enters its accept loop (with
zero bound sockets) instead of aborting startup. -/
theorem c8_all_bind_failures_counterexample :
    websocket_listener_setup (some [⟨false, true, true, true, true⟩]) =
      .enterAcceptLoop 0 ∧
    websocket_listener_setup (some [⟨false, true, true, true, true⟩]) ≠
      .abortStartup := by decide

/-- C8 (amended): startup aborts only when address resolution fails; when
resolution succeeds and every candidate fails a setup step, the failures
are skipped and the listener enters its accept loop with zero listening
sockets. -/
theorem c8_all_bind_failures_enter_loop (cs : List BindCandidate)
    (h : ∀ c ∈ cs, candidateOk c = false) :
    websocket_listener_setup (some cs) = .enterAcceptLoop 0 ∧
    websocket_listener_setup none = .abortStartup := by
  constructor
  · simp only [websocket_listener_setup]
    rw [setupLoop_all_fail cs 0 h]
  · rfl

/-- Witness for the amended C8 with two failing candidates. -/
theorem c8_all_bind_failures_enter_loop_witness :
    websocket_listener_setup
        (some [⟨false, true, true, true, true⟩,
          ⟨true, true, true, false, true⟩]) = .enterAcceptLoop 0 ∧
    websocket_listener_setup none = .abortStartup :=
  c8_all_bind_failures_enter_loop
    [⟨false, true, true, true, true⟩, ⟨true, true, true, false, true⟩]
    (by decide)

/-- C9: the degrees field `1234.5678` with hemisphere `N` decodes to
exactly 12.57613 decimal degrees (12° plus 345678/600000 minutes-scaled),
which is within 0.001 of the spec's stated approximate value +12.5763. -/
theorem c9_degrees_example :
    nmea_degrees ("1234.5678".toList) false = some (1257613 / 100000) ∧
    |(1257613 / 100000 : ℚ) - 125763 / 10000| < 1 / 1000 := by
  constructor
  · have h : nmea_degrees_split ("1234.5678".toList) =
        some (['1', '2'], ['3', '4'], ['5', '6', '7', '8']) := by decide
    simp only [nmea_degrees, h]
    simp [foldDigits, digitVal]
    norm_num
  · have h2 : |(1257613 / 100000 : ℚ) - 125763 / 10000| = 17 / 100000 := by
      rw [abs_sub_comm,
        abs_of_nonneg (by norm_num : (0 : ℚ) ≤ 125763 / 10000 - 1257613 / 100000)]
      norm_num
    rw [h2]
    norm_num

/-- C10: a driver name containing a slash is rejected immediately —
`trx_control` returns `slashInName` with an empty trace, before opening the
device or touching the filesystem — and consequently the driver path is
only ever built (`statDriver`) and the device only ever opened for
slash-free names. -/
theorem c10_slash_rejected (env : TrxEnv) :
    ('/' ∈ env.trx_type → trx_control env = (.slashInName, [])) ∧
    (TrxEvent.openAttempt ∈ (trx_control env).2 ∨
        TrxEvent.statDriver ∈ (trx_control env).2 →
      '/' ∉ env.trx_type) := by
  by_cases hs : '/' ∈ env.trx_type
  · constructor
    · intro _
      simp [trx_control, hs]
    · intro hmem
      rcases hmem with hmem | hmem <;>
        simp [trx_control, hs] at hmem
  · exact ⟨fun h => absurd h hs, fun _ => hs⟩

/-- Witness for C10: the driver name `ya/esu` is rejected with an empty
trace. -/
theorem c10_slash_rejected_witness :
    trx_control ⟨"ya/esu".toList, true, true, true, true, true, false, true⟩ =
      (.slashInName, []) :=
  (c10_slash_rejected
    ⟨"ya/esu".toList, true, true, true, true, true, false, true⟩).1 (by decide)

end TrxControl
